import Mathlib

/-! # LLMJVM over uC/OS-III: the single-alarm wake-up protocol

A shallow embedding of `src/main/c/src/LLMJVM_uCOS3.c`.

* The three file-level variables of the alarm (`LLMJVM_UCOS3_timer_expired`,
  `LLMJVM_UCOS3_next_wake_up_time`, `LLMJVM_UCOS3_wake_up_timer`) form the record `AlarmState`.
* `int64_t` values are integers; the one 64-bit subtraction of the file is reduced to two's
  complement by `wrapInt64`, the cast to `OS_TICK` is a reduction modulo `2 ^ tickBits`.
* What the collaborators answer during one call (clock, timer primitives, `LLMJVM_schedule`)
  is the record `Host`; the primitives a call invokes are logged, in order, as `HostCall`s.
* `LLMJVM_ASSERT` loops forever when its argument is false: a call that reaches a failed
  assertion has no outcome (`none`).
* `LLMJVM_schedule` belongs to the VM; it does not touch the variables of the alarm.
* Calls and timer expiries are atomic with respect to each other.
-/

namespace LLMJVM

/-! ## Machine integers -/

/-- Largest `int64_t`. -/
def INT64_MAX : Int := 2 ^ 63 - 1

/-- Smallest `int64_t`. -/
def INT64_MIN : Int := -(2 ^ 63)

/-- Values representable in an `int64_t`. -/
def InInt64 (x : Int) : Prop := INT64_MIN ≤ x ∧ x ≤ INT64_MAX

instance (x : Int) : Decidable (InInt64 x) := by
  unfold InInt64; exact inferInstance

/-- Reduction of an integer to 64-bit two's complement. -/
def wrapInt64 (x : Int) : Int := (x + 2 ^ 63) % 2 ^ 64 - 2 ^ 63

/-! ## Host types -/

/-- Error codes of the host (`OS_ERR`); only `OS_ERR_NONE` is distinguished by the file. -/
abbrev OS_ERR := Nat

/-- The host's "no error" code. -/
def OS_ERR_NONE : OS_ERR := 0

/-- Result codes of `LLMJVM_impl.h` are 32-bit integers. -/
abbrev Rslt := Int

/-- Modelled from the spec: `LLMJVM_impl.h` is not among the sources; the spec names the two
results `Ok` and `Error`, which are distinct. The values are those of the header. -/
def LLMJVM_OK : Rslt := 0

/-- Modelled from the spec: see `LLMJVM_OK`. -/
def LLMJVM_ERROR : Rslt := -1

/-- States of a host timer, as read by the file through the field `State`. -/
inductive OS_STATE where
  | OS_TMR_STATE_UNUSED
  | OS_TMR_STATE_STOPPED
  | OS_TMR_STATE_RUNNING
  | OS_TMR_STATE_COMPLETED
  deriving DecidableEq, Repr

open OS_STATE

/-- The host timer object. `State` is the field the file reads; `Dly` is the one-shot delay last
accepted by `OSTmrSet`/`OSTmrCreate`. `Deadline` is a ghost field: the absolute deadline on
whose behalf `Dly` was last written (it has no counterpart in the C object). -/
structure OS_TMR where
  State : OS_STATE
  Dly : Nat
  Deadline : Int
  deriving DecidableEq, Repr

/-- The file-level variables of the alarm. -/
structure AlarmState where
  LLMJVM_UCOS3_timer_expired : Bool
  LLMJVM_UCOS3_next_wake_up_time : Int
  LLMJVM_UCOS3_wake_up_timer : OS_TMR
  deriving DecidableEq, Repr

/-- Parameters fixed by the platform, declared outside the file: the clock-to-tick conversion
`microej_time_time_to_tick` (of `microej_time.h`) and the width in bits of the unsigned host
type `OS_TICK` (uC/OS-III declares it as `CPU_INT32U`). -/
structure Platform where
  microej_time_time_to_tick : Int → Int
  tickBits : Nat

/-- What the collaborators answer during one call of the file's functions: the time read by
`LLMJVM_IMPL_getCurrentTime(MICROEJ_TRUE)`, the error codes written by `OSTmrStop`, `OSTmrSet`
and `OSTmrStart`, the value returned by `OSTmrStart`, the value returned by `LLMJVM_schedule`. -/
structure Host where
  currentTime : Int
  err_stop : OS_ERR
  err_set : OS_ERR
  xTimerStartResult : Bool
  err_start : OS_ERR
  schedule : Rslt
  deriving DecidableEq, Repr

/-- The collaborator entry points a call can invoke, with the delay passed to `OSTmrSet`. -/
inductive HostCall where
  | OSTmrStop
  | OSTmrSet (dly : Nat)
  | OSTmrStart
  | LLMJVM_schedule
  deriving DecidableEq, Repr

/-- Outcome of a call that returns: its result, the variables afterwards, and the collaborator
entry points it invoked, in order. -/
structure Outcome where
  rslt : Rslt
  state : AlarmState
  calls : List HostCall
  deriving DecidableEq, Repr

/-! ## Host timer primitives

The timer primitives belong to the host. Their effect on the timer object is modelled as far
as the file observes it: a primitive that reports an error leaves the object as it was. -/

/-- The cast `(OS_TICK)x` of a 64-bit value to the unsigned host tick type. -/
def castTick (p : Platform) (x : Int) : Nat := (x % 2 ^ p.tickBits).toNat

/-- Modelled from the spec: host primitive `stop(handle, mode) -> Error?`; an accepted stop
leaves the timer not running. -/
def OSTmrStop (tmr : OS_TMR) (err : OS_ERR) : OS_TMR :=
  if err = OS_ERR_NONE then { tmr with State := OS_TMR_STATE_STOPPED } else tmr

/-- Modelled from the spec: host primitive `set(handle, delayTicks, ...) -> Error?`; an accepted
set records the delay (and, as ghost, the deadline it stands for) and keeps the state. -/
def OSTmrSet (tmr : OS_TMR) (dly : Nat) (deadline : Int) (err : OS_ERR) : OS_TMR :=
  if err = OS_ERR_NONE then { tmr with Dly := dly, Deadline := deadline } else tmr

/-- Modelled from the spec: host primitive `start(handle) -> bool success`; a successful start
leaves the timer running. -/
def OSTmrStart (tmr : OS_TMR) (ok : Bool) (err : OS_ERR) : OS_TMR :=
  if ok = true ∧ err = OS_ERR_NONE then { tmr with State := OS_TMR_STATE_RUNNING } else tmr

/-- Modelled from the spec: host primitive `create(...) -> handle | Error`; the created timer
is idle (stopped) with the given initial delay. -/
def OSTmrCreate (tmr : OS_TMR) (dly : Nat) (err : OS_ERR) : OS_TMR :=
  if err = OS_ERR_NONE then { tmr with State := OS_TMR_STATE_STOPPED, Dly := dly } else tmr

/-! ## The functions of the file -/

/-- Initial delay of the timer, `LLMJVM_UCOS3_WAKEUP_TIMER_DELAY_MS`. -/
def LLMJVM_UCOS3_WAKEUP_TIMER_DELAY_MS : Int := 100

/-- The static initialisers of the three variables. -/
def staticState : AlarmState :=
  { LLMJVM_UCOS3_timer_expired := false
    LLMJVM_UCOS3_next_wake_up_time := INT64_MAX
    LLMJVM_UCOS3_wake_up_timer :=
      { State := OS_TMR_STATE_UNUSED, Dly := 0, Deadline := INT64_MAX } }

/-- The callback given to the host timer: `wake_up_timer_callback`. The flag says whether
`p_tmr` is the address of the owned timer. -/
def wake_up_timer_callback (p_tmr_is_wake_up_timer : Bool) (s : AlarmState) :
    AlarmState × List HostCall :=
  if p_tmr_is_wake_up_timer = true then
    ({ s with LLMJVM_UCOS3_timer_expired := true }, [HostCall.LLMJVM_schedule])
  else
    (s, [])

/-- Creation of the timer and of the semaphore, ` LLMJVM_IMPL_initialize`; `err_tmr` and
`err_sem` are the codes written by `OSTmrCreate` and `OSSemCreate`. -/
def LLMJVM_IMPL_initialize (p : Platform) (OSCfg_TmrTaskRate_Hz : Nat) (err_tmr err_sem : OS_ERR)
    (s : AlarmState) : Rslt × AlarmState :=
  if OSCfg_TmrTaskRate_Hz ≤ 0 then
    (LLMJVM_ERROR, s)
  else
    let tmr := OSTmrCreate s.LLMJVM_UCOS3_wake_up_timer
      (castTick p (p.microej_time_time_to_tick LLMJVM_UCOS3_WAKEUP_TIMER_DELAY_MS)) err_tmr
    let s1 := { s with LLMJVM_UCOS3_wake_up_timer := tmr }
    if err_tmr ≠ OS_ERR_NONE then
      (LLMJVM_ERROR, s1)
    else if err_sem ≠ OS_ERR_NONE then
      (LLMJVM_ERROR, s1)
    else
      (LLMJVM_OK, s1)

/-- The block "stop current timer (no delay)" that both branches of the request share:
`OSTmrStop` when the timer is running, followed by `LLMJVM_ASSERT(OS_ERR_NONE == err_stop)`. -/
def stopIfRunning (h : Host) (tmr : OS_TMR) : Option (OS_TMR × List HostCall) :=
  if tmr.State = OS_TMR_STATE_RUNNING then
    if h.err_stop = OS_ERR_NONE then
      some (OSTmrStop tmr h.err_stop, [HostCall.OSTmrStop])
    else
      none
  else
    some (tmr, [])

/-- The 64-bit difference `relativeTime = absoluteTime - currentTime`. -/
def relativeTime (h : Host) (absoluteTime : Int) : Int :=
  wrapInt64 (absoluteTime - h.currentTime)

/-- The tick count `relativeTick = microej_time_time_to_tick(relativeTime)`. -/
def relativeTick (p : Platform) (h : Host) (absoluteTime : Int) : Int :=
  p.microej_time_time_to_tick (relativeTime h absoluteTime)

/-- The test of the `else if` of the request: the timer has expired, or the new deadline is
earlier than the recorded one, or the recorded one is not after the current time. -/
def rearmTest (h : Host) (s : AlarmState) (absoluteTime : Int) : Prop :=
  s.LLMJVM_UCOS3_timer_expired = true ∨
    absoluteTime < s.LLMJVM_UCOS3_next_wake_up_time ∨
    s.LLMJVM_UCOS3_next_wake_up_time ≤ h.currentTime

instance (h : Host) (s : AlarmState) (absoluteTime : Int) :
    Decidable (rearmTest h s absoluteTime) := by
  unfold rearmTest; exact inferInstance

/-- Requests from the VM: `LLMJVM_IMPL_scheduleRequest`. -/
def LLMJVM_IMPL_scheduleRequest (p : Platform) (h : Host) (s : AlarmState)
    (absoluteTime : Int) : Option Outcome :=
  if relativeTick p h absoluteTime ≤ 0 then
    match stopIfRunning h s.LLMJVM_UCOS3_wake_up_timer with
    | none => none
    | some (tmr, stopped) =>
      some
        { rslt := h.schedule
          state :=
            { s with
              LLMJVM_UCOS3_next_wake_up_time := INT64_MAX
              LLMJVM_UCOS3_wake_up_timer := tmr }
          calls := stopped ++ [HostCall.LLMJVM_schedule] }
  else if rearmTest h s absoluteTime then
    match stopIfRunning h s.LLMJVM_UCOS3_wake_up_timer with
    | none => none
    | some (tmr, stopped) =>
      let dly := castTick p (relativeTick p h absoluteTime)
      let tmr1 := OSTmrSet tmr dly absoluteTime h.err_set
      let tmr2 := OSTmrStart tmr1 h.xTimerStartResult h.err_start
      some
        { rslt :=
            if h.xTimerStartResult ≠ true ∨ h.err_set ≠ OS_ERR_NONE ∨
                h.err_start ≠ OS_ERR_NONE then
              LLMJVM_ERROR
            else
              LLMJVM_OK
          state :=
            { LLMJVM_UCOS3_timer_expired := false
              LLMJVM_UCOS3_next_wake_up_time := absoluteTime
              LLMJVM_UCOS3_wake_up_timer := tmr2 }
          calls := stopped ++ [HostCall.OSTmrSet dly, HostCall.OSTmrStart] }
  else
    some { rslt := LLMJVM_OK, state := s, calls := [] }

/-- The outcome of a request that does nothing. -/
def noOp (s : AlarmState) : Outcome := { rslt := LLMJVM_OK, state := s, calls := [] }

/-- An outcome in which the timer was rearmed: `OSTmrSet` was invoked with the delay computed
for the requested deadline, and `OSTmrStart` was invoked. -/
def Rearmed (p : Platform) (h : Host) (absoluteTime : Int) (o : Outcome) : Prop :=
  HostCall.OSTmrSet (castTick p (relativeTick p h absoluteTime)) ∈ o.calls ∧
    HostCall.OSTmrStart ∈ o.calls

instance (p : Platform) (h : Host) (absoluteTime : Int) (o : Outcome) :
    Decidable (Rearmed p h absoluteTime o) := by
  unfold Rearmed; exact inferInstance

/-- The host accepts the arming: `OSTmrSet` and `OSTmrStart` report no error and `OSTmrStart`
returns `DEF_TRUE`. -/
def HostArms (h : Host) : Prop :=
  h.err_set = OS_ERR_NONE ∧ h.xTimerStartResult = true ∧ h.err_start = OS_ERR_NONE

instance (h : Host) : Decidable (HostArms h) := by
  unfold HostArms; exact inferInstance

/-! ## Concrete platforms, hosts and states used as inputs -/

/-- A platform with one tick per millisecond and a 32-bit `OS_TICK`. -/
def tick1kHz : Platform := { microej_time_time_to_tick := fun t => t, tickBits := 32 }

/-- A platform with one tick per millisecond and a 64-bit `OS_TICK`. -/
def tick1kHz64 : Platform := { microej_time_time_to_tick := fun t => t, tickBits := 64 }

/-- A platform whose conversion adds one guard tick to the millisecond count, 32-bit
`OS_TICK`. -/
def tickGuard : Platform := { microej_time_time_to_tick := fun t => t + 1, tickBits := 32 }

/-- A platform with a 100 Hz tick whose conversion truncates (C division), 32-bit `OS_TICK`. -/
def tick100HzTrunc : Platform :=
  { microej_time_time_to_tick := fun t => Int.tdiv (t * 100) 1000, tickBits := 32 }

/-- A host on which every primitive succeeds and `LLMJVM_schedule` returns `LLMJVM_OK`. -/
def hostOk (now : Int) : Host :=
  { currentTime := now, err_stop := OS_ERR_NONE, err_set := OS_ERR_NONE,
    xTimerStartResult := true, err_start := OS_ERR_NONE, schedule := LLMJVM_OK }

/-- The alarm armed for deadline `D`: recorded, timer running with delay `dly`, not expired. -/
def armedFor (D : Int) (dly : Nat) : AlarmState :=
  { LLMJVM_UCOS3_timer_expired := false
    LLMJVM_UCOS3_next_wake_up_time := D
    LLMJVM_UCOS3_wake_up_timer := { State := OS_TMR_STATE_RUNNING, Dly := dly, Deadline := D } }

/-- The alarm after the timer armed for `D` has expired: flag set, timer completed. -/
def firedFor (D : Int) (dly : Nat) : AlarmState :=
  { LLMJVM_UCOS3_timer_expired := true
    LLMJVM_UCOS3_next_wake_up_time := D
    LLMJVM_UCOS3_wake_up_timer := { State := OS_TMR_STATE_COMPLETED, Dly := dly, Deadline := D } }

/-- The variables after a successful ` LLMJVM_IMPL_initialize` (timer task rate 10 Hz). -/
def initialState (p : Platform) : AlarmState :=
  ( LLMJVM_IMPL_initialize p 10 OS_ERR_NONE OS_ERR_NONE staticState).2

/-! ## Runs: requests and timer expiries from initialisation on -/

/-- What can happen to the alarm after initialisation: a request of the VM, answered by the
host as `h` says, or the expiry of the running one-shot timer. -/
inductive Event where
  | request (h : Host) (absoluteTime : Int)
  | fire
  deriving DecidableEq, Repr

/-- Modelled from the spec: expiry of the host one-shot timer. It happens only while the timer
is running; the host marks the timer completed (not running) and runs the callback with the
timer's own identity. -/
def timerFire (s : AlarmState) : Option (AlarmState × List HostCall) :=
  if s.LLMJVM_UCOS3_wake_up_timer.State = OS_TMR_STATE_RUNNING then
    some
      (wake_up_timer_callback true
        { s with
          LLMJVM_UCOS3_wake_up_timer :=
            { s.LLMJVM_UCOS3_wake_up_timer with State := OS_TMR_STATE_COMPLETED } })
  else
    none

/-- One event; `none` when the event cannot happen in `s` or the call does not return. -/
def step (p : Platform) (s : AlarmState) : Event → Option AlarmState
  | Event.request h absoluteTime =>
    (LLMJVM_IMPL_scheduleRequest p h s absoluteTime).map fun o => o.state
  | Event.fire => (timerFire s).map fun r => r.1

/-- A sequence of events, from `s`. -/
def run (p : Platform) (s : AlarmState) : List Event → Option AlarmState
  | [] => some s
  | e :: es =>
    match step p s e with
    | none => none
    | some s1 => run p s1 es

/-- The events whose arming the host accepts: every request finds `OSTmrSet` and `OSTmrStart`
successful. -/
def Event.arms : Event → Prop
  | Event.request h _ => HostArms h
  | Event.fire => True

/-- The single-alarm invariant: a running timer was last set for the recorded wake-up time,
and with the timer not running and no expiry pending the recorded wake-up time is
`INT64_MAX`. -/
def SingleAlarm (s : AlarmState) : Prop :=
  (s.LLMJVM_UCOS3_wake_up_timer.State = OS_TMR_STATE_RUNNING →
      s.LLMJVM_UCOS3_next_wake_up_time = s.LLMJVM_UCOS3_wake_up_timer.Deadline) ∧
    (s.LLMJVM_UCOS3_wake_up_timer.State ≠ OS_TMR_STATE_RUNNING →
      s.LLMJVM_UCOS3_timer_expired = false →
      s.LLMJVM_UCOS3_next_wake_up_time = INT64_MAX)

instance (s : AlarmState) : Decidable (SingleAlarm s) := by
  unfold SingleAlarm; exact inferInstance

/-- An expired flag implies a timer that is not running. -/
def ExpiredNotRunning (s : AlarmState) : Prop :=
  s.LLMJVM_UCOS3_timer_expired = true →
    s.LLMJVM_UCOS3_wake_up_timer.State ≠ OS_TMR_STATE_RUNNING

instance (s : AlarmState) : Decidable (ExpiredNotRunning s) := by
  unfold ExpiredNotRunning; exact inferInstance

instance (e : Event) : Decidable e.arms := by
  cases e <;> unfold Event.arms <;> exact inferInstance

/-! ## The wake-up signal -/

/-- The host semaphore `LLMJVM_UCOS3_Semaphore`, as far as the file uses it: its counter. -/
structure OS_SEM where
  Ctr : Nat
  deriving DecidableEq, Repr

/-- The semaphore primitives belong to the host and are not in the sources. The file fixes the
initial count (0, in `OSSemCreate`), the option of the post (`OS_OPT_POST_ALL`) and the blocking
pend without timeout; what such a post does to the counter while no task is pending is a
parameter. -/
structure SemHost where
  postNoWaiter : Nat → Nat

/-- The semaphore as ` LLMJVM_IMPL_initialize` creates it: `OSSemCreate` with count 0. -/
def createdSemaphore : OS_SEM := { Ctr := 0 }

/-- The host's post, `OSSemPost` with `OS_OPT_POST_ALL`, while no task is pending; `err` is the
code it writes. A post that reports an error leaves the counter as it was. -/
def OSSemPost (sh : SemHost) (sem : OS_SEM) (err : OS_ERR) : OS_SEM :=
  if err = OS_ERR_NONE then { Ctr := sh.postNoWaiter sem.Ctr } else sem

/-- Wake-up of the VM task, `LLMJVM_IMPL_wakeupVM`: `OSSemPost` with `OS_OPT_POST_ALL`; the
result is `LLMJVM_OK` when the post reports no error, `LLMJVM_ERROR` otherwise. -/
def LLMJVM_IMPL_wakeupVM (sh : SemHost) (err : OS_ERR) (sem : OS_SEM) : Rslt × OS_SEM :=
  (if OS_ERR_NONE = err then LLMJVM_OK else LLMJVM_ERROR, OSSemPost sh sem err)

/-- Modelled from the spec: host primitive `pend(handle, timeout=infinite, mode=blocking)`,
"wait-then-consume"; `err` is the code it writes. A pend that reports an error returns with the
counter as it was; otherwise, with a positive counter it consumes one unit and returns at once,
and with counter 0 the caller is suspended (`none`). -/
def OSSemPend (sem : OS_SEM) (err : OS_ERR) : Option OS_SEM :=
  if err = OS_ERR_NONE then
    if 0 < sem.Ctr then some { Ctr := sem.Ctr - 1 } else none
  else
    some sem

/-- Suspension of the VM task, `LLMJVM_IMPL_idleVM`: a blocking `OSSemPend` without timeout;
the result is `LLMJVM_OK` when the pend reports no error, `LLMJVM_ERROR` otherwise. -/
def LLMJVM_IMPL_idleVM (err : OS_ERR) (sem : OS_SEM) : Option (Rslt × OS_SEM) :=
  (OSSemPend sem err).map fun sem1 =>
    (if OS_ERR_NONE = err then LLMJVM_OK else LLMJVM_ERROR, sem1)

/-- The semaphore after `n` consecutive wake-ups with no task pending, each post reporting
no error. -/
def wakeups (sh : SemHost) : Nat → OS_SEM → OS_SEM
  | 0, sem => sem
  | n + 1, sem => wakeups sh n (LLMJVM_IMPL_wakeupVM sh OS_ERR_NONE sem).2

/-- A host whose post, with no task pending, leaves the signal pending once. -/
def saturatingSem : SemHost := { postNoWaiter := fun _ => 1 }

/-- A host whose post, with no task pending, increments the counter. -/
def countingSem : SemHost := { postNoWaiter := fun c => c + 1 }

/-! ## The request: which path is taken -/

/-- The timer after the block "stop current timer" has run to its end. -/
def stoppedTimer (tmr : OS_TMR) : OS_TMR :=
  if tmr.State = OS_TMR_STATE_RUNNING then { tmr with State := OS_TMR_STATE_STOPPED } else tmr

/-- The primitives the block "stop current timer" invokes. -/
def stopCalls (tmr : OS_TMR) : List HostCall :=
  if tmr.State = OS_TMR_STATE_RUNNING then [HostCall.OSTmrStop] else []

theorem stopIfRunning_eq (h : Host) (tmr : OS_TMR)
    (hstop : tmr.State = OS_TMR_STATE_RUNNING → h.err_stop = OS_ERR_NONE) :
    stopIfRunning h tmr = some (stoppedTimer tmr, stopCalls tmr) := by
  by_cases hr : tmr.State = OS_TMR_STATE_RUNNING
  · simp [stopIfRunning, stoppedTimer, stopCalls, hr, hstop hr, OSTmrStop]
  · simp [stopIfRunning, stoppedTimer, stopCalls, hr]

theorem stoppedTimer_not_running (tmr : OS_TMR) :
    (stoppedTimer tmr).State ≠ OS_TMR_STATE_RUNNING := by
  unfold stoppedTimer
  split
  · simp
  · assumption

theorem immediate_path (p : Platform) (h : Host) (s : AlarmState)
    (absoluteTime : Int) (hrt : relativeTick p h absoluteTime ≤ 0)
    (hstop : s.LLMJVM_UCOS3_wake_up_timer.State = OS_TMR_STATE_RUNNING →
      h.err_stop = OS_ERR_NONE) :
    LLMJVM_IMPL_scheduleRequest p h s absoluteTime =
      some
        { rslt := h.schedule
          state :=
            { s with
              LLMJVM_UCOS3_next_wake_up_time := INT64_MAX
              LLMJVM_UCOS3_wake_up_timer := stoppedTimer s.LLMJVM_UCOS3_wake_up_timer }
          calls := stopCalls s.LLMJVM_UCOS3_wake_up_timer ++ [HostCall.LLMJVM_schedule] } := by
  unfold LLMJVM_IMPL_scheduleRequest
  rw [if_pos hrt, stopIfRunning_eq h _ hstop]

theorem rearm_path (p : Platform) (h : Host) (s : AlarmState)
    (absoluteTime : Int) (hpos : 0 < relativeTick p h absoluteTime)
    (ht : rearmTest h s absoluteTime)
    (hstop : s.LLMJVM_UCOS3_wake_up_timer.State = OS_TMR_STATE_RUNNING →
      h.err_stop = OS_ERR_NONE) :
    LLMJVM_IMPL_scheduleRequest p h s absoluteTime =
      some
        { rslt :=
            if h.xTimerStartResult ≠ true ∨ h.err_set ≠ OS_ERR_NONE ∨
                h.err_start ≠ OS_ERR_NONE then
              LLMJVM_ERROR
            else
              LLMJVM_OK
          state :=
            { LLMJVM_UCOS3_timer_expired := false
              LLMJVM_UCOS3_next_wake_up_time := absoluteTime
              LLMJVM_UCOS3_wake_up_timer :=
                OSTmrStart
                  (OSTmrSet (stoppedTimer s.LLMJVM_UCOS3_wake_up_timer)
                    (castTick p (relativeTick p h absoluteTime)) absoluteTime h.err_set)
                  h.xTimerStartResult h.err_start }
          calls :=
            stopCalls s.LLMJVM_UCOS3_wake_up_timer ++
              [HostCall.OSTmrSet (castTick p (relativeTick p h absoluteTime)),
                HostCall.OSTmrStart] } := by
  unfold LLMJVM_IMPL_scheduleRequest
  rw [if_neg (not_le.mpr hpos), if_pos ht, stopIfRunning_eq h _ hstop]

theorem noOp_path (p : Platform) (h : Host) (s : AlarmState)
    (absoluteTime : Int) (hpos : 0 < relativeTick p h absoluteTime)
    (ht : ¬ rearmTest h s absoluteTime) :
    LLMJVM_IMPL_scheduleRequest p h s absoluteTime = some (noOp s) := by
  unfold LLMJVM_IMPL_scheduleRequest
  rw [if_neg (not_le.mpr hpos), if_neg ht]
  rfl

theorem stopCalls_no_schedule (tmr : OS_TMR) : HostCall.LLMJVM_schedule ∉ stopCalls tmr := by
  unfold stopCalls
  split <;> simp

theorem stopCalls_no_set (tmr : OS_TMR) (dly : Nat) : HostCall.OSTmrSet dly ∉ stopCalls tmr := by
  unfold stopCalls
  split <;> simp

theorem LLMJVM_OK_ne_ERROR : LLMJVM_OK ≠ LLMJVM_ERROR := by decide

theorem wrapInt64_of_inInt64 (x : Int) (hx : InInt64 x) : wrapInt64 x = x := by
  unfold InInt64 INT64_MIN INT64_MAX at hx
  unfold wrapInt64
  have h1 : 0 ≤ x + 2 ^ 63 := by omega
  have h2 : x + 2 ^ 63 < 2 ^ 64 := by omega
  rw [Int.emod_eq_of_lt h1 h2]
  omega

theorem relativeTime_of_inInt64 (h : Host) (absoluteTime : Int)
    (hfit : InInt64 (absoluteTime - h.currentTime)) :
    relativeTime h absoluteTime = absoluteTime - h.currentTime := by
  unfold relativeTime
  exact wrapInt64_of_inInt64 _ hfit

/-- C1, as stated, fails, for each of two reasons. The subtraction: with one tick per
millisecond, at time 1, the deadline `INT64_MIN` has an exact difference below zero, yet its
64-bit relative time is `2 ^ 63 - 1` and the request arms the timer without notifying the
scheduler. The conversion: with a conversion that adds one guard tick, at time 1000 the
deadline 1000 has relative time 0, yet its tick count is 1 and the request arms the timer
without notifying the scheduler. -/
theorem past_deadline_armed_not_notified :
    (InInt64 INT64_MIN ∧ InInt64 (hostOk 1).currentTime ∧
      INT64_MIN - (hostOk 1).currentTime ≤ 0 ∧
      LLMJVM_IMPL_scheduleRequest tick1kHz64 (hostOk 1) (initialState tick1kHz64) INT64_MIN =
        some
          { rslt := LLMJVM_OK
            state :=
              { LLMJVM_UCOS3_timer_expired := false
                LLMJVM_UCOS3_next_wake_up_time := INT64_MIN
                LLMJVM_UCOS3_wake_up_timer :=
                  { State := OS_TMR_STATE_RUNNING, Dly := 2 ^ 63 - 1, Deadline := INT64_MIN } }
            calls := [HostCall.OSTmrSet (2 ^ 63 - 1), HostCall.OSTmrStart] }) ∧
    (InInt64 1000 ∧ InInt64 (hostOk 1000).currentTime ∧
      (1000 : Int) - (hostOk 1000).currentTime ≤ 0 ∧
      LLMJVM_IMPL_scheduleRequest tickGuard (hostOk 1000) (initialState tickGuard) 1000 =
        some
          { rslt := LLMJVM_OK
            state :=
              { LLMJVM_UCOS3_timer_expired := false
                LLMJVM_UCOS3_next_wake_up_time := 1000
                LLMJVM_UCOS3_wake_up_timer :=
                  { State := OS_TMR_STATE_RUNNING, Dly := 1, Deadline := 1000 } }
            calls := [HostCall.OSTmrSet 1, HostCall.OSTmrStart] }) := by
  decide

/-- C1, amended. For every state of the alarm, a request whose relative time is zero or
negative as the program computes it (the 64-bit two's complement difference) - which includes
every deadline whose exact difference `absoluteTime - currentTime` is zero or negative and fits
in 64 bits - returns, provided the conversion sends non-positive durations to non-positive tick
counts and the host accepts the stop of a running timer; afterwards the recorded wake-up time is
`INT64_MAX` and the timer is not running, having been stopped exactly when it was running;
`LLMJVM_schedule` is invoked exactly once and its value is the result of the call. -/
theorem scheduleRequest_past_deadline (p : Platform) (h : Host) (s : AlarmState)
    (absoluteTime : Int)
    (hconv : ∀ t : Int, t ≤ 0 → p.microej_time_time_to_tick t ≤ 0)
    (hrel : relativeTime h absoluteTime ≤ 0 ∨
      (InInt64 (absoluteTime - h.currentTime) ∧ absoluteTime - h.currentTime ≤ 0))
    (hstop : s.LLMJVM_UCOS3_wake_up_timer.State = OS_TMR_STATE_RUNNING →
      h.err_stop = OS_ERR_NONE) :
    ∃ o, LLMJVM_IMPL_scheduleRequest p h s absoluteTime = some o ∧
      o.state.LLMJVM_UCOS3_next_wake_up_time = INT64_MAX ∧
      o.state.LLMJVM_UCOS3_wake_up_timer.State ≠ OS_TMR_STATE_RUNNING ∧
      o.state.LLMJVM_UCOS3_timer_expired = s.LLMJVM_UCOS3_timer_expired ∧
      o.calls =
        (if s.LLMJVM_UCOS3_wake_up_timer.State = OS_TMR_STATE_RUNNING then
          [HostCall.OSTmrStop, HostCall.LLMJVM_schedule]
        else [HostCall.LLMJVM_schedule]) ∧
      o.calls.count HostCall.LLMJVM_schedule = 1 ∧
      o.rslt = h.schedule := by
  have hrel1 : relativeTime h absoluteTime ≤ 0 := by
    rcases hrel with h1 | ⟨h1, h2⟩
    · exact h1
    · rw [relativeTime_of_inInt64 h absoluteTime h1]; exact h2
  have hrt : relativeTick p h absoluteTime ≤ 0 := hconv _ hrel1
  refine ⟨_, immediate_path p h s absoluteTime hrt hstop, rfl, ?_, rfl, ?_, ?_, rfl⟩
  · exact stoppedTimer_not_running _
  · by_cases hr : s.LLMJVM_UCOS3_wake_up_timer.State = OS_TMR_STATE_RUNNING <;>
      simp [stopCalls, hr]
  · by_cases hr : s.LLMJVM_UCOS3_wake_up_timer.State = OS_TMR_STATE_RUNNING <;>
      simp [stopCalls, hr]

/-- Witness of C1, amended: at time 1000, with the alarm armed for 5000, a request for 999,
whose exact difference -1 fits in 64 bits. -/
theorem scheduleRequest_past_deadline_witness :
    (InInt64 (999 - (hostOk 1000).currentTime) ∧ (999 : Int) - (hostOk 1000).currentTime ≤ 0) ∧
    ∃ o, LLMJVM_IMPL_scheduleRequest tick1kHz (hostOk 1000) (armedFor 5000 4000) 999 = some o ∧
      o.state.LLMJVM_UCOS3_next_wake_up_time = INT64_MAX ∧
      o.state.LLMJVM_UCOS3_wake_up_timer.State ≠ OS_TMR_STATE_RUNNING ∧
      o.state.LLMJVM_UCOS3_timer_expired = (armedFor 5000 4000).LLMJVM_UCOS3_timer_expired ∧
      o.calls =
        (if (armedFor 5000 4000).LLMJVM_UCOS3_wake_up_timer.State = OS_TMR_STATE_RUNNING then
          [HostCall.OSTmrStop, HostCall.LLMJVM_schedule]
        else [HostCall.LLMJVM_schedule]) ∧
      o.calls.count HostCall.LLMJVM_schedule = 1 ∧
      o.rslt = (hostOk 1000).schedule :=
  ⟨by decide,
    scheduleRequest_past_deadline tick1kHz (hostOk 1000) (armedFor 5000 4000) 999
      (fun _ ht => ht) (Or.inr (by decide)) (fun _ => rfl)⟩

/-- C2. A request whose tick-converted relative delay is positive (the host accepting the stop
of a running timer) returns, and it rearms the timer if and only if the timer has expired, or
the deadline is earlier than the recorded wake-up time, or the recorded wake-up time is not
after the current time; when none of the three holds the variables are unchanged, no
collaborator is invoked and the result is `LLMJVM_OK`. -/
theorem scheduleRequest_rearm_iff (p : Platform) (h : Host) (s : AlarmState)
    (absoluteTime : Int) (hpos : 0 < relativeTick p h absoluteTime)
    (hstop : s.LLMJVM_UCOS3_wake_up_timer.State = OS_TMR_STATE_RUNNING →
      h.err_stop = OS_ERR_NONE) :
    ∃ o, LLMJVM_IMPL_scheduleRequest p h s absoluteTime = some o ∧
      (Rearmed p h absoluteTime o ↔
        (s.LLMJVM_UCOS3_timer_expired = true ∨
          absoluteTime < s.LLMJVM_UCOS3_next_wake_up_time ∨
          s.LLMJVM_UCOS3_next_wake_up_time ≤ h.currentTime)) ∧
      (¬ (s.LLMJVM_UCOS3_timer_expired = true ∨
            absoluteTime < s.LLMJVM_UCOS3_next_wake_up_time ∨
            s.LLMJVM_UCOS3_next_wake_up_time ≤ h.currentTime) →
        o.state = s ∧ o.calls = [] ∧ o.rslt = LLMJVM_OK) := by
  by_cases ht : rearmTest h s absoluteTime
  · refine ⟨_, rearm_path p h s absoluteTime hpos ht hstop, ?_, ?_⟩
    · constructor
      · intro _; exact ht
      · intro _; simp [Rearmed]
    · intro hn; exact absurd ht hn
  · refine ⟨_, noOp_path p h s absoluteTime hpos ht, ?_, ?_⟩
    · constructor
      · intro hr; simp [Rearmed, noOp] at hr
      · intro hc; exact absurd hc ht
    · intro _; exact ⟨rfl, rfl, rfl⟩

/-- Witness of C2: at time 0, with the alarm armed for 500, a request for 1000. -/
theorem scheduleRequest_rearm_iff_witness :
    ∃ o, LLMJVM_IMPL_scheduleRequest tick1kHz (hostOk 0) (armedFor 500 500) 1000 = some o ∧
      (Rearmed tick1kHz (hostOk 0) 1000 o ↔
        ((armedFor 500 500).LLMJVM_UCOS3_timer_expired = true ∨
          1000 < (armedFor 500 500).LLMJVM_UCOS3_next_wake_up_time ∨
          (armedFor 500 500).LLMJVM_UCOS3_next_wake_up_time ≤ (hostOk 0).currentTime)) ∧
      (¬ ((armedFor 500 500).LLMJVM_UCOS3_timer_expired = true ∨
            1000 < (armedFor 500 500).LLMJVM_UCOS3_next_wake_up_time ∨
            (armedFor 500 500).LLMJVM_UCOS3_next_wake_up_time ≤ (hostOk 0).currentTime) →
        o.state = armedFor 500 500 ∧ o.calls = [] ∧ o.rslt = LLMJVM_OK) :=
  scheduleRequest_rearm_iff tick1kHz (hostOk 0) (armedFor 500 500) 1000 (by decide)
    (fun _ => rfl)

/-- C3, as stated, fails, for each of two reasons. The conversion: on a 100 Hz platform whose
conversion truncates, at time 0 and with the alarm armed for 1000, a request for the future
deadline 5 notifies the scheduler, stops the timer and resets the recorded wake-up time to
`INT64_MAX`. The subtraction: with one tick per millisecond, at time -1 and with the alarm armed
for 1000, the deadline `INT64_MAX` is strictly in the future, yet its 64-bit relative time is
`-2 ^ 63` and the request does the same. -/
theorem scheduleRequest_subtick_future_deadline :
    (0 < relativeTime (hostOk 0) 5 ∧
      LLMJVM_IMPL_scheduleRequest tick100HzTrunc (hostOk 0) (armedFor 1000 100) 5 =
        some
          { rslt := LLMJVM_OK
            state :=
              { LLMJVM_UCOS3_timer_expired := false
                LLMJVM_UCOS3_next_wake_up_time := INT64_MAX
                LLMJVM_UCOS3_wake_up_timer :=
                  { State := OS_TMR_STATE_STOPPED, Dly := 100, Deadline := 1000 } }
            calls := [HostCall.OSTmrStop, HostCall.LLMJVM_schedule] }) ∧
    (InInt64 INT64_MAX ∧ InInt64 (hostOk (-1)).currentTime ∧
      0 < INT64_MAX - (hostOk (-1)).currentTime ∧
      LLMJVM_IMPL_scheduleRequest tick1kHz (hostOk (-1)) (armedFor 1000 1001) INT64_MAX =
        some
          { rslt := LLMJVM_OK
            state :=
              { LLMJVM_UCOS3_timer_expired := false
                LLMJVM_UCOS3_next_wake_up_time := INT64_MAX
                LLMJVM_UCOS3_wake_up_timer :=
                  { State := OS_TMR_STATE_STOPPED, Dly := 1001, Deadline := 1000 } }
            calls := [HostCall.OSTmrStop, HostCall.LLMJVM_schedule] }) := by
  decide

/-- C3, amended. The path of a request is decided by the tick-converted relative delay, the
relative time being the 64-bit two's complement difference. When the tick count is positive the
scheduler is not notified and the request either rearms the timer, recording the deadline, or
does nothing; when it is zero or negative the scheduler is notified and the recorded wake-up
time becomes `INT64_MAX`. For a conversion that sends every positive duration to a positive
tick count, every deadline strictly in the future whose exact difference
`absoluteTime - currentTime` fits in 64 bits takes the first case. -/
theorem scheduleRequest_path_by_tick (p : Platform) (h : Host) (s : AlarmState)
    (absoluteTime : Int)
    (hstop : s.LLMJVM_UCOS3_wake_up_timer.State = OS_TMR_STATE_RUNNING →
      h.err_stop = OS_ERR_NONE) :
    ∃ o, LLMJVM_IMPL_scheduleRequest p h s absoluteTime = some o ∧
      (0 < relativeTick p h absoluteTime →
        HostCall.LLMJVM_schedule ∉ o.calls ∧
          ((Rearmed p h absoluteTime o ∧
              o.state.LLMJVM_UCOS3_next_wake_up_time = absoluteTime) ∨
            (o.state = s ∧ o.calls = [] ∧ o.rslt = LLMJVM_OK))) ∧
      (relativeTick p h absoluteTime ≤ 0 →
        HostCall.LLMJVM_schedule ∈ o.calls ∧
          o.state.LLMJVM_UCOS3_next_wake_up_time = INT64_MAX) ∧
      ((∀ t : Int, 0 < t → 0 < p.microej_time_time_to_tick t) →
        InInt64 (absoluteTime - h.currentTime) → 0 < absoluteTime - h.currentTime →
        HostCall.LLMJVM_schedule ∉ o.calls ∧
          ((Rearmed p h absoluteTime o ∧
              o.state.LLMJVM_UCOS3_next_wake_up_time = absoluteTime) ∨
            (o.state = s ∧ o.calls = [] ∧ o.rslt = LLMJVM_OK))) := by
  have hconv : (∀ t : Int, 0 < t → 0 < p.microej_time_time_to_tick t) →
      InInt64 (absoluteTime - h.currentTime) → 0 < absoluteTime - h.currentTime →
      0 < relativeTick p h absoluteTime := by
    intro hc hfit hfut
    unfold relativeTick
    rw [relativeTime_of_inInt64 h absoluteTime hfit]
    exact hc _ hfut
  by_cases hrt : relativeTick p h absoluteTime ≤ 0
  · refine ⟨_, immediate_path p h s absoluteTime hrt hstop, ?_, ?_, ?_⟩
    · intro hpos; exact absurd hrt (not_le.mpr hpos)
    · intro _; exact ⟨by simp, rfl⟩
    · intro hc hfit hfut; exact absurd hrt (not_le.mpr (hconv hc hfit hfut))
  · have hpos : 0 < relativeTick p h absoluteTime := not_le.mp hrt
    by_cases ht : rearmTest h s absoluteTime
    · have key : HostCall.LLMJVM_schedule ∉
            stopCalls s.LLMJVM_UCOS3_wake_up_timer ++
              [HostCall.OSTmrSet (castTick p (relativeTick p h absoluteTime)),
                HostCall.OSTmrStart] := by
        simp [stopCalls_no_schedule]
      refine ⟨_, rearm_path p h s absoluteTime hpos ht hstop, ?_, ?_, ?_⟩
      · intro _; exact ⟨key, Or.inl ⟨by simp [Rearmed], rfl⟩⟩
      · intro hle; exact absurd hle hrt
      · intro _ _ _; exact ⟨key, Or.inl ⟨by simp [Rearmed], rfl⟩⟩
    · refine ⟨_, noOp_path p h s absoluteTime hpos ht, ?_, ?_, ?_⟩
      · intro _; exact ⟨by simp [noOp], Or.inr ⟨rfl, rfl, rfl⟩⟩
      · intro hle; exact absurd hle hrt
      · intro _ _ _; exact ⟨by simp [noOp], Or.inr ⟨rfl, rfl, rfl⟩⟩

/-- Witness of C3, amended: at time 0, with the alarm armed for 1000, a request for 500, whose
exact difference 500 fits in 64 bits, on the platform with one tick per millisecond. -/
theorem scheduleRequest_path_by_tick_witness :
    ∃ o, LLMJVM_IMPL_scheduleRequest tick1kHz (hostOk 0) (armedFor 1000 1000) 500 = some o ∧
      HostCall.LLMJVM_schedule ∉ o.calls ∧
      ((Rearmed tick1kHz (hostOk 0) 500 o ∧
          o.state.LLMJVM_UCOS3_next_wake_up_time = 500) ∨
        (o.state = armedFor 1000 1000 ∧ o.calls = [] ∧ o.rslt = LLMJVM_OK)) :=
  (scheduleRequest_path_by_tick tick1kHz (hostOk 0) (armedFor 1000 1000) 500
      (fun _ => rfl)).imp
    fun _ ho => ⟨ho.1, ho.2.2.2 (fun _ ht => ht) (by decide) (by decide)⟩

/-! ## The request: the rearm path -/

/-- C7. Whenever a request takes the rearm path (positive tick-converted delay, rearm test
true, the host accepting the stop of a running timer) it returns, having invoked `OSTmrSet` and
`OSTmrStart`, and its result is `LLMJVM_ERROR` if and only if `OSTmrSet` reports an error, or
`OSTmrStart` reports an error or returns false; it is `LLMJVM_OK` when both succeed. -/
theorem scheduleRequest_rearm_result (p : Platform) (h : Host) (s : AlarmState)
    (absoluteTime : Int) (hpos : 0 < relativeTick p h absoluteTime)
    (ht : rearmTest h s absoluteTime)
    (hstop : s.LLMJVM_UCOS3_wake_up_timer.State = OS_TMR_STATE_RUNNING →
      h.err_stop = OS_ERR_NONE) :
    ∃ o, LLMJVM_IMPL_scheduleRequest p h s absoluteTime = some o ∧
      Rearmed p h absoluteTime o ∧
      (o.rslt = LLMJVM_ERROR ↔
        (h.err_set ≠ OS_ERR_NONE ∨ h.err_start ≠ OS_ERR_NONE ∨ h.xTimerStartResult = false)) ∧
      (h.err_set = OS_ERR_NONE ∧ h.err_start = OS_ERR_NONE ∧ h.xTimerStartResult = true →
        o.rslt = LLMJVM_OK) ∧
      (o.rslt = LLMJVM_OK ∨ o.rslt = LLMJVM_ERROR) := by
  refine ⟨_, rearm_path p h s absoluteTime hpos ht hstop, by simp [Rearmed], ?_, ?_, ?_⟩
  · by_cases h1 : h.xTimerStartResult = true <;> by_cases h2 : h.err_set = OS_ERR_NONE <;>
      by_cases h3 : h.err_start = OS_ERR_NONE <;> simp [h1, h2, h3, LLMJVM_OK_ne_ERROR]
  · rintro ⟨h2, h3, h1⟩
    simp [h1, h2, h3]
  · by_cases h1 : h.xTimerStartResult = true <;> by_cases h2 : h.err_set = OS_ERR_NONE <;>
      by_cases h3 : h.err_start = OS_ERR_NONE <;> simp [h1, h2, h3]

/-- Witness of C7: at time 0, alarm just initialised, a request for 1000 on a host whose `OSTmrStart`
returns false. -/
theorem scheduleRequest_rearm_result_witness :
    ∃ o, LLMJVM_IMPL_scheduleRequest tick1kHz { hostOk 0 with xTimerStartResult := false }
        (initialState tick1kHz) 1000 = some o ∧
      o.rslt = LLMJVM_ERROR :=
  (scheduleRequest_rearm_result tick1kHz { hostOk 0 with xTimerStartResult := false }
      (initialState tick1kHz) 1000 (by decide) (by decide) (fun _ => rfl)).imp
    fun _ ho => ⟨ho.1, ho.2.2.1.mpr (Or.inr (Or.inr rfl))⟩

/-- C4, as stated, fails: with the alarm armed for 100 and the timer still running at time 150,
a request for the later deadline 200 is not a no-op; it rearms for 200. -/
theorem scheduleRequest_later_deadline_rearms :
    (100 : Int) ≤ 200 ∧ 0 < relativeTick tick1kHz (hostOk 150) 200 ∧
      LLMJVM_IMPL_scheduleRequest tick1kHz (hostOk 150) (armedFor 100 100) 200 =
        some
          { rslt := LLMJVM_OK
            state := armedFor 200 50
            calls := [HostCall.OSTmrStop, HostCall.OSTmrSet 50, HostCall.OSTmrStart] } := by
  decide

/-- C4, amended. With the alarm armed for `D` (recorded, timer running, not expired) and a
deadline `D2` whose tick-converted delay is positive: if `D2 < D`, or if `D` is not after the
current time, the request rearms for `D2` (the timer is stopped, set to the delay computed for
`D2` and started; it runs with that delay when the host accepts set and start); if `D ≤ D2` and
`D` is after the current time, the request does nothing. -/
theorem scheduleRequest_earliest_wins (p : Platform) (h : Host) (s : AlarmState) (D D2 : Int)
    (hD : s.LLMJVM_UCOS3_next_wake_up_time = D)
    (hrun : s.LLMJVM_UCOS3_wake_up_timer.State = OS_TMR_STATE_RUNNING)
    (hexp : s.LLMJVM_UCOS3_timer_expired = false)
    (hpos : 0 < relativeTick p h D2)
    (hstop : h.err_stop = OS_ERR_NONE) :
    ∃ o, LLMJVM_IMPL_scheduleRequest p h s D2 = some o ∧
      (D2 < D ∨ D ≤ h.currentTime →
        o.state.LLMJVM_UCOS3_next_wake_up_time = D2 ∧
          o.state.LLMJVM_UCOS3_timer_expired = false ∧
          o.calls =
            [HostCall.OSTmrStop, HostCall.OSTmrSet (castTick p (relativeTick p h D2)),
              HostCall.OSTmrStart] ∧
          (HostArms h →
            o.rslt = LLMJVM_OK ∧
              o.state.LLMJVM_UCOS3_wake_up_timer =
                { State := OS_TMR_STATE_RUNNING
                  Dly := castTick p (relativeTick p h D2)
                  Deadline := D2 })) ∧
      (D ≤ D2 → h.currentTime < D →
        o.state = s ∧ o.calls = [] ∧ o.rslt = LLMJVM_OK) := by
  by_cases ht : D2 < D ∨ D ≤ h.currentTime
  · have ht2 : rearmTest h s D2 := by
      unfold rearmTest; rw [hD]; exact Or.inr ht
    refine ⟨_, rearm_path p h s D2 hpos ht2 (fun _ => hstop), ?_, ?_⟩
    · intro _
      refine ⟨rfl, rfl, by simp [stopCalls, hrun], ?_⟩
      rintro ⟨h1, h2, h3⟩
      simp [h1, h2, h3, OSTmrStart, OSTmrSet, stoppedTimer, hrun]
    · intro h1 h2
      rcases ht with ht | ht
      · exact absurd h1 (not_le.mpr ht)
      · exact absurd ht (not_le.mpr h2)
  · have ht2 : ¬ rearmTest h s D2 := by
      unfold rearmTest; rw [hD, hexp]; simpa using ht
    refine ⟨_, noOp_path p h s D2 hpos ht2, ?_, ?_⟩
    · intro h1; exact absurd h1 ht
    · intro _ _; exact ⟨rfl, rfl, rfl⟩

/-- Witness of C4, amended: armed for `now + 1000`, a request for `now + 500` rearms with a
delay of 500 ticks; armed for `now + 500`, a request for `now + 1000` changes nothing. -/
theorem scheduleRequest_earliest_wins_witness :
    (∃ o, LLMJVM_IMPL_scheduleRequest tick1kHz (hostOk 0) (armedFor 1000 1000) 500 = some o ∧
      o.state = armedFor 500 500 ∧
      o.calls = [HostCall.OSTmrStop, HostCall.OSTmrSet 500, HostCall.OSTmrStart]) ∧
    (∃ o, LLMJVM_IMPL_scheduleRequest tick1kHz (hostOk 0) (armedFor 500 500) 1000 = some o ∧
      o.state = armedFor 500 500 ∧ o.calls = []) :=
  ⟨(scheduleRequest_earliest_wins tick1kHz (hostOk 0) (armedFor 1000 1000) 1000 500 rfl rfl rfl
      (by decide) rfl).imp
    fun o ho => by
      obtain ⟨h0, h1, -⟩ := ho
      obtain ⟨h2, h3, h4, h5⟩ := h1 (Or.inl (by decide))
      obtain ⟨-, h6⟩ := h5 (by decide)
      refine ⟨h0, ?_, h4⟩
      cases o with
      | mk r st c =>
        cases st with
        | mk e n t =>
          simp only at h2 h3 h6
          subst h2 h3 h6
          rfl,
   (scheduleRequest_earliest_wins tick1kHz (hostOk 0) (armedFor 500 500) 500 1000 rfl rfl rfl
      (by decide) rfl).imp
    fun _ ho => ⟨ho.1, (ho.2.2 (by decide) (by decide)).1, (ho.2.2 (by decide) (by decide)).2.1⟩⟩

/-- C5. After `wake_up_timer_callback` has run for the owned timer, whatever wake-up time is
recorded, the next request with a positive tick-converted delay (the host accepting the stop of
a running timer) returns and takes the rearm path: the deadline is recorded, the expiry flag is
cleared, `OSTmrSet` is invoked with the delay computed for the deadline and then `OSTmrStart`,
the scheduler is not notified; the timer runs with that delay when the host accepts set and
start. -/
theorem scheduleRequest_after_fire (p : Platform) (h : Host) (s : AlarmState) (D : Int)
    (hpos : 0 < relativeTick p h D)
    (hstop : s.LLMJVM_UCOS3_wake_up_timer.State = OS_TMR_STATE_RUNNING →
      h.err_stop = OS_ERR_NONE) :
    (wake_up_timer_callback true s).1.LLMJVM_UCOS3_timer_expired = true ∧
    (wake_up_timer_callback true s).1.LLMJVM_UCOS3_next_wake_up_time =
      s.LLMJVM_UCOS3_next_wake_up_time ∧
    ∃ o, LLMJVM_IMPL_scheduleRequest p h (wake_up_timer_callback true s).1 D = some o ∧
      o.state.LLMJVM_UCOS3_next_wake_up_time = D ∧
      o.state.LLMJVM_UCOS3_timer_expired = false ∧
      o.calls =
        stopCalls s.LLMJVM_UCOS3_wake_up_timer ++
          [HostCall.OSTmrSet (castTick p (relativeTick p h D)), HostCall.OSTmrStart] ∧
      Rearmed p h D o ∧
      HostCall.LLMJVM_schedule ∉ o.calls ∧
      (HostArms h →
        o.rslt = LLMJVM_OK ∧
          o.state.LLMJVM_UCOS3_wake_up_timer =
            { State := OS_TMR_STATE_RUNNING
              Dly := castTick p (relativeTick p h D)
              Deadline := D }) := by
  have ht : rearmTest h (wake_up_timer_callback true s).1 D := Or.inl rfl
  refine ⟨rfl, rfl, _, rearm_path p h _ D hpos ht hstop, rfl, rfl, rfl,
    by simp [Rearmed], ?_, ?_⟩
  · simp [stopCalls_no_schedule]
  · rintro ⟨h1, h2, h3⟩
    simp [h1, h2, h3, OSTmrStart, OSTmrSet]

/-- Witness of C5: the alarm armed for 5000 has expired; at time 5000 the deadline 9000, later
than the recorded one, is requested. -/
theorem scheduleRequest_after_fire_witness :
    (wake_up_timer_callback true
        { armedFor 5000 5000 with
          LLMJVM_UCOS3_wake_up_timer :=
            { State := OS_TMR_STATE_COMPLETED, Dly := 5000, Deadline := 5000 } }).1 =
        firedFor 5000 5000 ∧
      ∃ o, LLMJVM_IMPL_scheduleRequest tick1kHz (hostOk 5000) (firedFor 5000 5000) 9000 =
          some o ∧
        o.state = armedFor 9000 4000 ∧
        o.calls = [HostCall.OSTmrSet 4000, HostCall.OSTmrStart] :=
  ⟨rfl,
    (scheduleRequest_after_fire tick1kHz (hostOk 5000)
        { armedFor 5000 5000 with
          LLMJVM_UCOS3_wake_up_timer :=
            { State := OS_TMR_STATE_COMPLETED, Dly := 5000, Deadline := 5000 } } 9000
        (by decide) (fun hr => absurd hr (by decide))).2.2.imp
      fun o ho => by
        obtain ⟨h0, h2, h3, h4, -, -, h5⟩ := ho
        obtain ⟨-, h6⟩ := h5 (by decide)
        refine ⟨h0, ?_, h4⟩
        cases o with
        | mk r st c =>
          cases st with
          | mk e n t =>
            simp only at h2 h3 h6
            subst h2 h3 h6
            rfl⟩

/-! ## The delay handed to the host -/

theorem castTick_of_lt (p : Platform) (x : Int) (h0 : 0 ≤ x) (hx : x < 2 ^ p.tickBits) :
    (castTick p x : Int) = x := by
  unfold castTick
  rw [Int.emod_eq_of_lt h0 hx]
  exact Int.toNat_of_nonneg h0

/-- C10, as stated, fails, in each of its two parts. The cast: on a 1 kHz platform with a
32-bit `OS_TICK`, at time 0, the request for the deadline `2 ^ 32 + 5` rearms and hands the
delay 5 to `OSTmrSet`, while the tick conversion of the relative time is `2 ^ 32 + 5`. The
subtraction: with a 64-bit `OS_TICK`, at time 1, the request for the deadline `INT64_MIN` rearms
and hands the delay `2 ^ 63 - 1` to `OSTmrSet`, while the exact difference is `-2 ^ 63 - 1`. -/
theorem truncated_delay_handed_to_timer :
    (InInt64 (2 ^ 32 + 5) ∧ InInt64 (hostOk 0).currentTime ∧
      LLMJVM_IMPL_scheduleRequest tick1kHz (hostOk 0) (initialState tick1kHz) (2 ^ 32 + 5) =
        some
          { rslt := LLMJVM_OK
            state :=
              { LLMJVM_UCOS3_timer_expired := false
                LLMJVM_UCOS3_next_wake_up_time := 2 ^ 32 + 5
                LLMJVM_UCOS3_wake_up_timer :=
                  { State := OS_TMR_STATE_RUNNING, Dly := 5, Deadline := 2 ^ 32 + 5 } }
            calls := [HostCall.OSTmrSet 5, HostCall.OSTmrStart] } ∧
      tick1kHz.microej_time_time_to_tick (2 ^ 32 + 5 - (hostOk 0).currentTime) = 2 ^ 32 + 5 ∧
      ((5 : Nat) : Int) ≠ 2 ^ 32 + 5) ∧
    (InInt64 INT64_MIN ∧ InInt64 (hostOk 1).currentTime ∧
      LLMJVM_IMPL_scheduleRequest tick1kHz64 (hostOk 1) (initialState tick1kHz64) INT64_MIN =
        some
          { rslt := LLMJVM_OK
            state :=
              { LLMJVM_UCOS3_timer_expired := false
                LLMJVM_UCOS3_next_wake_up_time := INT64_MIN
                LLMJVM_UCOS3_wake_up_timer :=
                  { State := OS_TMR_STATE_RUNNING, Dly := 2 ^ 63 - 1, Deadline := INT64_MIN } }
            calls := [HostCall.OSTmrSet (2 ^ 63 - 1), HostCall.OSTmrStart] } ∧
      tick1kHz64.microej_time_time_to_tick (INT64_MIN - (hostOk 1).currentTime) =
        -(2 ^ 63) - 1 ∧
      (((2 ^ 63 - 1 : Nat) : Int)) ≠ -(2 ^ 63) - 1) := by
  decide

/-- C10, amended. Whenever a request rearms (positive tick-converted delay, rearm test true,
the host accepting the stop of a running timer), the only delay handed to `OSTmrSet` is the
tick conversion of the 64-bit two's complement difference `absoluteTime - currentTime`, reduced
modulo `2 ^ tickBits` by the cast to `OS_TICK`. It is the tick conversion of the exact
difference whenever that difference fits in 64 bits and the tick count is below
`2 ^ tickBits`. -/
theorem scheduleRequest_delay (p : Platform) (h : Host) (s : AlarmState) (absoluteTime : Int)
    (hpos : 0 < relativeTick p h absoluteTime)
    (ht : rearmTest h s absoluteTime)
    (hstop : s.LLMJVM_UCOS3_wake_up_timer.State = OS_TMR_STATE_RUNNING →
      h.err_stop = OS_ERR_NONE) :
    ∃ o, LLMJVM_IMPL_scheduleRequest p h s absoluteTime = some o ∧
      HostCall.OSTmrSet
          ((p.microej_time_time_to_tick (wrapInt64 (absoluteTime - h.currentTime)) %
            2 ^ p.tickBits).toNat) ∈ o.calls ∧
      (∀ dly, HostCall.OSTmrSet dly ∈ o.calls →
        dly = (p.microej_time_time_to_tick (wrapInt64 (absoluteTime - h.currentTime)) %
          2 ^ p.tickBits).toNat) ∧
      (InInt64 (absoluteTime - h.currentTime) →
        p.microej_time_time_to_tick (absoluteTime - h.currentTime) < 2 ^ p.tickBits →
        ∀ dly, HostCall.OSTmrSet dly ∈ o.calls →
          (dly : Int) = p.microej_time_time_to_tick (absoluteTime - h.currentTime)) := by
  have hall : ∀ dly, HostCall.OSTmrSet dly ∈
      stopCalls s.LLMJVM_UCOS3_wake_up_timer ++
        [HostCall.OSTmrSet (castTick p (relativeTick p h absoluteTime)), HostCall.OSTmrStart] →
      dly = castTick p (relativeTick p h absoluteTime) := by
    intro dly hd
    rcases List.mem_append.mp hd with hd | hd
    · exact absurd hd (stopCalls_no_set _ _)
    · simpa using hd
  refine ⟨_, rearm_path p h s absoluteTime hpos ht hstop, ?_, hall, ?_⟩
  · show HostCall.OSTmrSet (castTick p (relativeTick p h absoluteTime)) ∈ _
    simp
  · intro hin hlt dly hd
    rw [hall dly hd]
    have hw : relativeTick p h absoluteTime =
        p.microej_time_time_to_tick (absoluteTime - h.currentTime) := by
      unfold relativeTick relativeTime
      rw [wrapInt64_of_inInt64 _ hin]
    rw [hw] at hpos ⊢
    exact castTick_of_lt p _ (le_of_lt hpos) hlt

/-- Witness of C10, amended: at time 0, alarm just initialised, a request for 1000 on the 1 kHz platform
hands the delay 1000 to `OSTmrSet`. -/
theorem scheduleRequest_delay_witness :
    ∃ o, LLMJVM_IMPL_scheduleRequest tick1kHz (hostOk 0) (initialState tick1kHz) 1000 = some o ∧
      HostCall.OSTmrSet 1000 ∈ o.calls :=
  (scheduleRequest_delay tick1kHz (hostOk 0) (initialState tick1kHz) 1000 (by decide) (by decide)
      (fun hr => absurd hr (by decide))).imp
    fun _ ho => ⟨ho.1, ho.2.1⟩

/-! ## Invariants of runs -/

theorem stopIfRunning_none (h : Host) (tmr : OS_TMR)
    (hr : tmr.State = OS_TMR_STATE_RUNNING) (hs : h.err_stop ≠ OS_ERR_NONE) :
    stopIfRunning h tmr = none := by
  simp [stopIfRunning, hr, hs]

/-- The three ways a request can return. -/
theorem request_paths (p : Platform) (h : Host) (s : AlarmState) (absoluteTime : Int)
    (o : Outcome) (ho : LLMJVM_IMPL_scheduleRequest p h s absoluteTime = some o) :
    (relativeTick p h absoluteTime ≤ 0 ∧
        o.state =
          { s with
            LLMJVM_UCOS3_next_wake_up_time := INT64_MAX
            LLMJVM_UCOS3_wake_up_timer := stoppedTimer s.LLMJVM_UCOS3_wake_up_timer } ∧
        o.calls = stopCalls s.LLMJVM_UCOS3_wake_up_timer ++ [HostCall.LLMJVM_schedule]) ∨
      (0 < relativeTick p h absoluteTime ∧ rearmTest h s absoluteTime ∧
        o.state =
          { LLMJVM_UCOS3_timer_expired := false
            LLMJVM_UCOS3_next_wake_up_time := absoluteTime
            LLMJVM_UCOS3_wake_up_timer :=
              OSTmrStart
                (OSTmrSet (stoppedTimer s.LLMJVM_UCOS3_wake_up_timer)
                  (castTick p (relativeTick p h absoluteTime)) absoluteTime h.err_set)
                h.xTimerStartResult h.err_start }) ∨
      (0 < relativeTick p h absoluteTime ∧ ¬ rearmTest h s absoluteTime ∧ o = noOp s) := by
  by_cases hstop : s.LLMJVM_UCOS3_wake_up_timer.State = OS_TMR_STATE_RUNNING →
      h.err_stop = OS_ERR_NONE
  · by_cases hrt : relativeTick p h absoluteTime ≤ 0
    · rw [immediate_path p h s absoluteTime hrt hstop] at ho
      cases ho
      exact Or.inl ⟨hrt, rfl, rfl⟩
    · have hpos : 0 < relativeTick p h absoluteTime := not_le.mp hrt
      by_cases ht : rearmTest h s absoluteTime
      · rw [rearm_path p h s absoluteTime hpos ht hstop] at ho
        cases ho
        exact Or.inr (Or.inl ⟨hpos, ht, rfl⟩)
      · rw [noOp_path p h s absoluteTime hpos ht] at ho
        cases ho
        exact Or.inr (Or.inr ⟨hpos, ht, rfl⟩)
  · have hr : s.LLMJVM_UCOS3_wake_up_timer.State = OS_TMR_STATE_RUNNING := by
      by_contra hn; exact hstop (fun hr => absurd hr hn)
    have hs : h.err_stop ≠ OS_ERR_NONE := fun hs => hstop (fun _ => hs)
    have hnone := stopIfRunning_none h _ hr hs
    by_cases hrt : relativeTick p h absoluteTime ≤ 0
    · unfold LLMJVM_IMPL_scheduleRequest at ho
      rw [if_pos hrt, hnone] at ho
      cases ho
    · have hpos : 0 < relativeTick p h absoluteTime := not_le.mp hrt
      by_cases ht : rearmTest h s absoluteTime
      · unfold LLMJVM_IMPL_scheduleRequest at ho
        rw [if_neg hrt, if_pos ht, hnone] at ho
        cases ho
      · rw [noOp_path p h s absoluteTime hpos ht] at ho
        cases ho
        exact Or.inr (Or.inr ⟨hpos, ht, rfl⟩)

theorem init_expiredNotRunning (p : Platform) (rate : Nat) (err_tmr err_sem : OS_ERR) :
    ExpiredNotRunning ( LLMJVM_IMPL_initialize p rate err_tmr err_sem staticState).2 := by
  intro hexp
  unfold LLMJVM_IMPL_initialize at hexp
  split_ifs at hexp <;> simp [staticState] at hexp

theorem init_singleAlarm (p : Platform) (rate : Nat) (err_tmr err_sem : OS_ERR) :
    SingleAlarm ( LLMJVM_IMPL_initialize p rate err_tmr err_sem staticState).2 := by
  unfold LLMJVM_IMPL_initialize SingleAlarm
  split_ifs <;> simp_all [staticState, OSTmrCreate]

theorem timerFire_state (s s1 : AlarmState) (calls : List HostCall)
    (h : timerFire s = some (s1, calls)) :
    s1.LLMJVM_UCOS3_timer_expired = true ∧
      s1.LLMJVM_UCOS3_wake_up_timer.State = OS_TMR_STATE_COMPLETED := by
  unfold timerFire at h
  split_ifs at h
  simp only [wake_up_timer_callback, if_true, Option.some.injEq, Prod.mk.injEq] at h
  obtain ⟨h1, -⟩ := h
  subst h1
  exact ⟨rfl, rfl⟩

theorem step_expiredNotRunning (p : Platform) (s s1 : AlarmState) (e : Event)
    (hs : ExpiredNotRunning s) (h : step p s e = some s1) : ExpiredNotRunning s1 := by
  cases e with
  | request hh absoluteTime =>
    simp only [step, Option.map_eq_some'] at h
    obtain ⟨o, ho, rfl⟩ := h
    rcases request_paths p hh s absoluteTime o ho with ⟨-, hst, -⟩ | ⟨-, -, hst⟩ |
      ⟨-, -, rfl⟩
    · intro _
      rw [hst]
      exact stoppedTimer_not_running _
    · intro hexp
      rw [hst] at hexp
      cases hexp
    · exact hs
  | fire =>
    simp only [step, Option.map_eq_some'] at h
    obtain ⟨⟨s2, calls⟩, hf, rfl⟩ := h
    intro _
    rw [(timerFire_state s s2 calls hf).2]
    decide

theorem step_singleAlarm (p : Platform) (s s1 : AlarmState) (e : Event)
    (hs : SingleAlarm s) (he : e.arms) (h : step p s e = some s1) : SingleAlarm s1 := by
  cases e with
  | request hh absoluteTime =>
    simp only [step, Option.map_eq_some'] at h
    obtain ⟨o, ho, rfl⟩ := h
    obtain ⟨h1, h2, h3⟩ : HostArms hh := he
    rcases request_paths p hh s absoluteTime o ho with ⟨-, hst, -⟩ | ⟨-, -, hst⟩ |
      ⟨-, -, rfl⟩
    · rw [hst]
      exact ⟨fun hr => absurd hr (stoppedTimer_not_running _), fun _ _ => rfl⟩
    · rw [hst]
      constructor
      · intro _
        simp [OSTmrStart, OSTmrSet, h1, h2, h3]
      · intro hn
        simp [OSTmrStart, OSTmrSet, h1, h2, h3] at hn
    · exact hs
  | fire =>
    simp only [step, Option.map_eq_some'] at h
    obtain ⟨⟨s2, calls⟩, hf, rfl⟩ := h
    obtain ⟨hexp, hst⟩ := timerFire_state s s2 calls hf
    constructor
    · intro hr
      rw [hst] at hr
      cases hr
    · intro _ hne
      rw [hexp] at hne
      cases hne

theorem run_expiredNotRunning (p : Platform) (es : List Event) :
    ∀ s s1 : AlarmState, ExpiredNotRunning s → run p s es = some s1 → ExpiredNotRunning s1 := by
  induction es with
  | nil =>
    intro s s1 hs h
    simp only [run, Option.some.injEq] at h
    exact h ▸ hs
  | cons e es ih =>
    intro s s1 hs h
    unfold run at h
    cases hstep : step p s e with
    | none => rw [hstep] at h; cases h
    | some s2 =>
      rw [hstep] at h
      exact ih s2 s1 (step_expiredNotRunning p s s2 e hs hstep) h

theorem run_singleAlarm (p : Platform) (es : List Event) :
    ∀ s s1 : AlarmState, SingleAlarm s → (∀ e ∈ es, e.arms) → run p s es = some s1 →
      SingleAlarm s1 := by
  induction es with
  | nil =>
    intro s s1 hs _ h
    simp only [run, Option.some.injEq] at h
    exact h ▸ hs
  | cons e es ih =>
    intro s s1 hs harm h
    unfold run at h
    cases hstep : step p s e with
    | none => rw [hstep] at h; cases h
    | some s2 =>
      rw [hstep] at h
      exact ih s2 s1
        (step_singleAlarm p s s2 e hs (harm e (List.mem_cons_self e es)) hstep)
        (fun e1 he1 => harm e1 (List.mem_cons_of_mem e he1)) h

/-- C9. In every state reached from ` LLMJVM_IMPL_initialize` by requests (whatever the host
answers) and expiries of the running one-shot timer, an expired flag implies that the timer is
not running; and every request that invokes `OSTmrStart` leaves the expired flag cleared. -/
theorem expired_implies_not_running (p : Platform) (rate : Nat) (err_tmr err_sem : OS_ERR)
    (es : List Event) (s : AlarmState)
    (hrun : run p ( LLMJVM_IMPL_initialize p rate err_tmr err_sem staticState).2 es = some s) :
    (s.LLMJVM_UCOS3_timer_expired = true →
        s.LLMJVM_UCOS3_wake_up_timer.State ≠ OS_TMR_STATE_RUNNING) ∧
      (∀ (h : Host) (absoluteTime : Int) (o : Outcome),
        LLMJVM_IMPL_scheduleRequest p h s absoluteTime = some o →
        HostCall.OSTmrStart ∈ o.calls → o.state.LLMJVM_UCOS3_timer_expired = false) := by
  refine ⟨run_expiredNotRunning p es _ s (init_expiredNotRunning p rate err_tmr err_sem)
    hrun, ?_⟩
  intro h absoluteTime o ho hstart
  rcases request_paths p h s absoluteTime o ho with ⟨-, -, hc⟩ | ⟨-, -, hst⟩ |
    ⟨-, -, rfl⟩
  · rw [hc] at hstart
    have : HostCall.OSTmrStart ∉ stopCalls s.LLMJVM_UCOS3_wake_up_timer := by
      unfold stopCalls; split <;> simp
    simp [this] at hstart
  · rw [hst]
  · simp [noOp] at hstart

/-- Witness of C9: initialise, request 1000 at time 0, the timer expires. -/
theorem expired_implies_not_running_witness :
    run tick1kHz ( LLMJVM_IMPL_initialize tick1kHz 10 0 0 staticState).2
        [Event.request (hostOk 0) 1000, Event.fire] = some (firedFor 1000 1000) ∧
      ((firedFor 1000 1000).LLMJVM_UCOS3_timer_expired = true →
        (firedFor 1000 1000).LLMJVM_UCOS3_wake_up_timer.State ≠ OS_TMR_STATE_RUNNING) :=
  ⟨by decide,
    (expired_implies_not_running tick1kHz 10 0 0 [Event.request (hostOk 0) 1000, Event.fire]
      (firedFor 1000 1000) (by decide)).1⟩

theorem wakeups_saturating (n : Nat) (sem : OS_SEM) (hn : 1 ≤ n) :
    wakeups saturatingSem n sem = { Ctr := 1 } := by
  induction n generalizing sem with
  | zero => omega
  | succ k ih =>
    cases k with
    | zero => rfl
    | succ j => exact ih _ (by omega)

theorem idle_once_on_saturating_host (n : Nat) (hn : 1 ≤ n) :
    LLMJVM_IMPL_idleVM OS_ERR_NONE (wakeups saturatingSem n createdSemaphore) =
        some (LLMJVM_OK, { Ctr := 0 }) ∧
      LLMJVM_IMPL_idleVM OS_ERR_NONE { Ctr := 0 } = none := by
  rw [wakeups_saturating n _ hn]
  exact ⟨rfl, rfl⟩

theorem idle_twice_on_counting_host :
    LLMJVM_IMPL_idleVM OS_ERR_NONE (wakeups countingSem 2 createdSemaphore) =
        some (LLMJVM_OK, { Ctr := 1 }) ∧
      LLMJVM_IMPL_idleVM OS_ERR_NONE { Ctr := 1 } = some (LLMJVM_OK, { Ctr := 0 }) := by
  decide

end LLMJVM
